import Mathlib

/-!
Verification development for the Navigate413 document-analysis backend.

The Python source is shallowly embedded: every LLM call, vector search and
database access is an oracle passed in as data (a reply string, a parsed
JSON value, a result list, or a failure flag for the corresponding
`except Exception` branch), and each pipeline stage (`router_agent`,
`finance_agent`, `housing_agent`, `visa_agent`, `rag_agent`, `risk_agent`,
`simulation_agent` in `backend/agents/base_agents.py`) becomes a total
function on an explicit `AgentState` record.  Python strings are modelled
as Lean `String`/`List Char` with hand-rolled structural implementations of
the exact `str` operations the source uses (`split`, `strip`, `lstrip`,
`lower`, `upper`, `startswith`, `endswith`, substring `in`, `replace`),
so that every definition reduces inside the kernel.  Python floats that the
source only ever sets to exact decimal constants are modelled as `ℚ`.
-/

namespace Navigate413

/-! ## Python string primitives (over `List Char`) -/

/-- Membership test for the Python whitespace set, as stripped by `str.strip()`
(ASCII subset; the replies handled by the source are produced by its own
prompts). -/
def pySpace (c : Char) : Bool :=
  c = ' ' || c = '\t' || c = '\n' || c = '\r' || c = '\x0b' || c = '\x0c'

/-- Python `s.strip()`: drop leading and trailing whitespace. -/
def pyStrip (l : List Char) : List Char :=
  ((l.dropWhile pySpace).reverse.dropWhile pySpace).reverse

/-- Python `s.lstrip(chars)`: drop leading characters drawn from `cs`. -/
def pyLstrip (cs : List Char) (l : List Char) : List Char :=
  l.dropWhile (fun c => cs.contains c)

/-- Python `s.lower()` (ASCII case mapping). -/
def pyLower (l : List Char) : List Char := l.map Char.toLower

/-- Python `s.upper()` (ASCII case mapping). -/
def pyUpper (l : List Char) : List Char := l.map Char.toUpper

/-- Python `s.startswith(p)`. -/
def listStartsWith : List Char → List Char → Bool
  | _, [] => true
  | [], _ :: _ => false
  | a :: as, b :: bs => a = b && listStartsWith as bs

/-- Python substring test `pat in hay`. -/
def listHasSub (hay pat : List Char) : Bool :=
  listStartsWith hay pat ||
    match hay with
    | [] => false
    | _ :: t => listHasSub t pat

/-- Python `s.split(c)` for a single-character separator: all pieces between
occurrences, keeping empty pieces. -/
def splitOnChar (c : Char) : List Char → List (List Char)
  | [] => [[]]
  | a :: as =>
    let r := splitOnChar c as
    if a = c then [] :: r
    else
      match r with
      | [] => [[a]]
      | h :: t => (a :: h) :: t

/-- The suffix of `l` after the first occurrence of `sep`; `none` when `sep`
does not occur. -/
def afterFirst (sep : List Char) : List Char → Option (List Char)
  | [] => if sep.isEmpty then some [] else none
  | a :: as =>
    if listStartsWith (a :: as) sep then some ((a :: as).drop sep.length)
    else afterFirst sep as

/-- The prefix of `l` before the first occurrence of `sep` (all of `l` when
`sep` does not occur). -/
def upToFirst (sep : List Char) : List Char → List Char
  | [] => []
  | a :: as =>
    if listStartsWith (a :: as) sep then [] else a :: upToFirst sep as

/-- Python `s.split(sep)[1]` for a non-empty `sep`: the piece strictly between
the first occurrence of `sep` and the next one (or the rest of the string).
`none` models the `IndexError` case where `sep` does not occur; every call
site in the source guards the occurrence first. -/
def pySplitIndex1 (sep l : List Char) : Option (List Char) :=
  (afterFirst sep l).map (upToFirst sep)

/-- Fuel-driven worker for `replaceAll` (structural recursion on the fuel so
the kernel can evaluate it). -/
def replaceAllAux (sep rep : List Char) : Nat → List Char → List Char
  | 0, l => l
  | _ + 1, [] => []
  | fuel + 1, a :: as =>
    if listStartsWith (a :: as) sep then
      rep ++ replaceAllAux sep rep fuel ((a :: as).drop sep.length)
    else a :: replaceAllAux sep rep fuel as

/-- Python `s.replace(sep, rep)` for a non-empty `sep`: every occurrence
replaced, scanning left to right.  `l.length` steps of fuel suffice because
each step consumes at least one character. -/
def replaceAll (sep rep l : List Char) : List Char :=
  replaceAllAux sep rep l.length l

/-- Python `s.endswith(c)` for a single character. -/
def lastIs (l : List Char) (c : Char) : Bool := l.getLast? = some c

/-- Render a character list back into a `String`. -/
def ofChars (l : List Char) : String := String.mk l

/-- Python truthiness of `state.get(key, "")` when the stored value is an
optional string: `None` and `""` are falsy. -/
def truthyOpt (o : Option String) : Bool := o.getD "" ≠ ""

/-! ## Classification (backend/agents/base_agents.py, `router_agent`)

The router asks the model for an analysis ending in a `DOMAIN:` line, scans
the reply line by line for the first line whose stripped form starts with
`DOMAIN:`, and takes `line.split("DOMAIN:")[1].strip().lower()` from the raw
line.  If that yields `"unknown"` (or no such line exists) a keyword fallback
runs over the lowercased reply. -/

/-- The value extracted from the first `DOMAIN:`-tagged line of the reply, if
any: `line.split("DOMAIN:")[1].strip().lower()` for the first line with
`line.strip().startswith("DOMAIN:")`.  (`pySplitIndex1` cannot miss there:
stripping only removes edge characters, so the stripped prefix occurs in the
raw line.) -/
def extractDomainTag (reply : String) : Option String :=
  (splitOnChar '\n' reply.data).findSome? fun line =>
    if listStartsWith (pyStrip line) "DOMAIN:".data then
      match pySplitIndex1 "DOMAIN:".data line with
      | some seg => some (ofChars (pyLower (pyStrip seg)))
      | none => none
    else none

/-- Keyword lists of the fallback branch of the router, verbatim from the source. -/
def routerFinanceKeywords : List String :=
  ["financial aid", "tuition", "scholarship", "loan", "bursar", "payment"]

def routerHousingKeywords : List String :=
  ["lease", "rent", "housing", "apartment", "residential"]

def routerVisaKeywords : List String :=
  ["visa", "f-1", "j-1", "i-20", "immigration"]

/-- Keyword fallback of `router_agent`: first matching domain bucket over the
lowercased analysis, else `"unknown"`. -/
def routerKeywordFallback (analysisLower : List Char) : String :=
  if routerFinanceKeywords.any (fun w => listHasSub analysisLower w.data) then "finance"
  else if routerHousingKeywords.any (fun w => listHasSub analysisLower w.data) then "housing"
  else if routerVisaKeywords.any (fun w => listHasSub analysisLower w.data) then "visa"
  else "unknown"

/-- Domain computed by `router_agent` from the model reply: the first
`DOMAIN:` tag if present, with the keyword fallback whenever the tag is
missing or literally `"unknown"`. -/
def routerExtractDomain (reply : String) : String :=
  let d := (extractDomainTag reply).getD "unknown"
  if d = "unknown" then routerKeywordFallback (pyLower reply.data) else d

/-- The canonical domain set of the specification. -/
def canonicalDomains : List String := ["finance", "housing", "visa", "unknown"]

/-! ## Classification (backend/pipelines/intent_router.py,
`classify_document_domain`)

This sibling classifier (defined in the repository but not called by the
agent pipeline) parses `{"domain": ...}` JSON from the model and — unlike
`router_agent` — validates the parsed value against the canonical set. -/

def intentFinanceKeywords : List String :=
  ["financial", "aid", "fafsa", "loan", "tuition", "scholarship"]

def intentVisaKeywords : List String :=
  ["visa", "work authorization", "i-20", "employment", "international"]

def intentHousingKeywords : List String :=
  ["lease", "housing", "tenant", "apartment", "rent", "roommate"]

/-- Keyword fallback of `classify_document_domain` over the lowercased
document text (note: ordered finance, visa, housing, unlike the router). -/
def intentKeywordFallback (textLower : List Char) : String :=
  if intentFinanceKeywords.any (fun w => listHasSub textLower w.data) then "finance"
  else if intentVisaKeywords.any (fun w => listHasSub textLower w.data) then "visa"
  else if intentHousingKeywords.any (fun w => listHasSub textLower w.data) then "housing"
  else "unknown"

/-- `classify_document_domain`: the oracle `parsedDomain` models the outcome
of `json.loads` on the model reply (`none` = `JSONDecodeError`, which
triggers the keyword fallback on the document text); `fail` models the outer
`except Exception` branch, which returns `"unknown"`.  A successfully parsed
domain is lowercased and validated against the canonical set. -/
def classify_document_domain (fail : Bool) (parsedDomain : Option String)
    (text : String) : String :=
  if fail then "unknown"
  else
    match parsedDomain with
    | some d =>
      let d := ofChars (pyLower d.data)
      if canonicalDomains.contains d then d else "unknown"
    | none => intentKeywordFallback (pyLower text.data)

/-! ## Shared state (backend/agents/base_agents.py, `AgentState`) -/

/-- One raw result of `GlobalRetrievalTool` as consumed by `rag_agent`
(`result.get("clause_text", "")`, `result.get("score", 0)`).  Relevance
scores are exact in the embedding (`ℚ`). -/
structure RagResult where
  clause_text : String
  score : ℚ
deriving DecidableEq, Repr

/-- One entry of `state["rag_context"]` as built by `rag_agent`:
`{"text": ..., "score": ..., "query": query[:50]}`. -/
structure RagClause where
  text : String
  score : ℚ
  query : String
deriving DecidableEq, Repr

/-- A scenario descriptor parsed from the JSON reply of the simulation model,
abstracted to the data the validation step inspects: the set of keys the
JSON object carries (`all(k in sim for k in [...])`). -/
structure SimObj where
  keys : List String
deriving DecidableEq, Repr

/-- `AgentState`: the shared state dictionary threaded through the workflow.
Optional string fields are Python `Optional[str]`. -/
structure AgentState where
  session_id : String
  raw_text : String
  domain : String
  language : String
  clauses : List String
  obligations : List String
  financial_details : Option String
  housing_details : Option String
  visa_details : Option String
  risk_assessment : Option String
  red_flags : List String
  resources : List String
  rag_context : List RagClause
  translation : Option String
  scenario : Option String
  simulation_options : List SimObj
  error : Option String
deriving DecidableEq, Repr

/-- The initial state built by `run_analysis_workflow` in
backend/agents/graph.py. -/
def initialState (session_id raw_text : String) : AgentState where
  session_id := session_id
  raw_text := raw_text
  domain := ""
  language := "en"
  clauses := []
  obligations := []
  financial_details := none
  housing_details := none
  visa_details := none
  risk_assessment := none
  red_flags := []
  resources := []
  rag_context := []
  translation := none
  scenario := none
  simulation_options := []
  error := none

/-- Oracle for one pipeline run: the model reply of each agent (already a string —
`call_gemini_with_reasoning` catches its own exceptions and returns a string
either way), the retrieval results per query for the RAG stage, the parsed
JSON outcome for the simulation stage (`none` = `json.JSONDecodeError`), and
one flag per agent for its outer `except Exception` branch. -/
structure Env where
  routerFail : Bool
  routerReply : String
  finFail : Bool
  finReply : String
  housFail : Bool
  housReply : String
  visaFail : Bool
  visaReply : String
  ragFail : Bool
  ragSearch : String → List RagResult
  riskFail : Bool
  riskReply : String
  simFail : Bool
  simParsed : Option (List SimObj)
  failMsg : String

/-! ## Agents (backend/agents/base_agents.py) -/

/-- `router_agent`: writes the extracted domain into the state; the
`except Exception` branch records the error and writes `"unknown"`.  The
function is total — it never raises to its caller. -/
def router_agent (fail : Bool) (msg reply : String) (s : AgentState) : AgentState :=
  if fail then { s with error := some msg, domain := "unknown" }
  else { s with domain := routerExtractDomain reply }

/-- Bullet-point post-processing shared by `finance_agent` (cap 8) and
`visa_agent` (cap 6): per line, strip, remove bullet markers, strip again,
keep lines that are non-empty, longer than 10 characters and do not end in a
colon; then truncate. -/
def parseObligations (analysis : String) (cap : Nat) : List String :=
  ((splitOnChar '\n' analysis.data).filterMap (fun line =>
    let l := pyStrip (pyLstrip ['•', '●', '-', '*'] (pyStrip line))
    if l ≠ [] ∧ l.length > 10 ∧ ¬ lastIs l ':' then some (ofChars l)
    else none)).take cap

/-- `finance_agent`: stores the model reply into `financial_details` and
appends up to 8 parsed obligations.  (The retrieval context only feeds the
prompt, i.e. the oracle reply.) -/
def finance_agent (fail : Bool) (msg reply : String) (s : AgentState) : AgentState :=
  if fail then { s with error := some msg }
  else
    { s with
      financial_details := some reply
      obligations := s.obligations ++ parseObligations reply 8 }

/-- `housing_agent`: stores the model reply into `housing_details` and
appends it to `clauses`. -/
def housing_agent (fail : Bool) (msg reply : String) (s : AgentState) : AgentState :=
  if fail then { s with error := some msg }
  else
    { s with
      housing_details := some reply
      clauses := s.clauses ++ [reply] }

/-- `visa_agent`: stores the model reply into `visa_details` and appends up
to 6 parsed obligations. -/
def visa_agent (fail : Bool) (msg reply : String) (s : AgentState) : AgentState :=
  if fail then { s with error := some msg }
  else
    { s with
      visa_details := some reply
      obligations := s.obligations ++ parseObligations reply 6 }

/-- The search queries `rag_agent` builds: a stripped 200-character document
snippet when `raw_text` is non-empty, plus one seeded query per domain whose
domain tag matches or whose detail field is truthy. -/
def ragQueries (s : AgentState) : List String :=
  (if s.raw_text ≠ "" then [ofChars (pyStrip (s.raw_text.data.take 200))] else [])
    ++ (if s.domain = "finance" ∨ truthyOpt s.financial_details then
        ["tuition payment deadline penalty financial obligation fee"] else [])
    ++ (if s.domain = "housing" ∨ truthyOpt s.housing_details then
        ["lease termination move-out penalty deposit liability"] else [])
    ++ (if s.domain = "visa" ∨ truthyOpt s.visa_details then
        ["visa compliance I-20 enrollment status immigration"] else [])

/-- One iteration of the `rag_agent` result loop: append the result as a
`RagClause` (with the query truncated to 50 characters) unless its text is
empty or already present. -/
def ragInsert (query : String) (acc : List RagClause) (r : RagResult) : List RagClause :=
  if r.clause_text ≠ "" ∧ ∀ c ∈ acc, c.text ≠ r.clause_text then
    acc ++ [⟨r.clause_text, r.score, ofChars (query.data.take 50)⟩]
  else acc

/-- The deduplicated clause list collected over all queries, in retrieval
order. -/
def ragCollect (search : String → List RagResult) (qs : List String) : List RagClause :=
  qs.foldl (fun acc q => (search q).foldl (ragInsert q) acc) []

/-- Sort key order of `sorted(..., key=lambda x: x.get("score", 0),
reverse=True)`: non-increasing score. -/
def scoreGE (a b : RagClause) : Prop := b.score ≤ a.score

instance : DecidableRel scoreGE := fun a b => inferInstanceAs (Decidable (b.score ≤ a.score))

instance : IsTotal RagClause scoreGE := ⟨fun a b => le_total b.score a.score⟩

instance : IsTrans RagClause scoreGE := ⟨fun _ _ _ h1 h2 => le_trans h2 h1⟩

/-- `rag_agent`: collect, deduplicate by exact text, sort by descending
score, keep the top 10, and overwrite `rag_context`.  The Python `sorted` builtin is a
stable sort; `List.insertionSort` with the non-strict key order is also
stable, so the two agree on every input. -/
def rag_agent (fail : Bool) (msg : String) (search : String → List RagResult)
    (s : AgentState) : AgentState :=
  if fail then { s with error := some msg }
  else
    { s with
      rag_context := (List.insertionSort scoreGE (ragCollect search (ragQueries s))).take 10 }

/-- The risk level `risk_agent` parses from the first `RISK_LEVEL:` line of
the reply (defaulting to MEDIUM).  The source computes this value and then
discards it: it is never stored in the state. -/
def riskAgentLevel (analysis : String) : String :=
  match (splitOnChar '\n' analysis.data).find? (fun line => listHasSub line "RISK_LEVEL:".data) with
  | none => "MEDIUM"
  | some line =>
    let up := pyUpper line
    if listHasSub up "HIGH".data then "HIGH"
    else if listHasSub up "LOW".data then "LOW"
    else "MEDIUM"

/-- The red flags `risk_agent` parses from the first `RED_FLAGS:` line:
comma-separated, stripped, skipped entirely when the line is missing, empty,
or reads `NONE` (case-insensitively). -/
def parseRedFlags (analysis : String) : List String :=
  if listHasSub analysis.data "RED_FLAGS:".data then
    match (splitOnChar '\n' analysis.data).find? (fun line => listHasSub line "RED_FLAGS:".data) with
    | none => []
    | some line =>
      let flagsText := pyStrip (replaceAll "RED_FLAGS:".data [] line)
      if flagsText ≠ [] ∧ ofChars (pyUpper flagsText) ≠ "NONE" then
        (splitOnChar ',' flagsText).map (fun f => ofChars (pyStrip f))
      else []
  else []

/-- `risk_agent`: stores the EMPTY string into `risk_assessment` on every
non-exception path (the parsed risk level is discarded) and appends up to 5
parsed red flags.  The `except Exception` branch leaves `risk_assessment`
untouched. -/
def risk_agent (fail : Bool) (msg reply : String) (s : AgentState) : AgentState :=
  if fail then { s with error := some msg }
  else
    { s with
      risk_assessment := some ""
      red_flags := s.red_flags ++ (parseRedFlags reply).take 5 }

/-- The keys a simulation descriptor must carry to be retained. -/
def simRequiredKeys : List String := ["scenario_type", "label", "parameters", "formula"]

/-- The validation step of `simulation_agent`:
`all(k in sim for k in ["scenario_type", "label", "parameters", "formula"])`. -/
def simValid (sim : SimObj) : Bool := simRequiredKeys.all (fun k => sim.keys.contains k)

/-- `simulation_agent`: for an unknown domain it short-circuits to `[]`; for
a known domain the `simulations` list of the parsed JSON (oracle `parsed`; `none`
= parse failure, which also yields `[]`) is filtered by `simValid`.  The
outer `except Exception` branch stores `[]` without recording an error. -/
def simulation_agent (fail : Bool) (parsed : Option (List SimObj))
    (s : AgentState) : AgentState :=
  if fail then { s with simulation_options := [] }
  else if s.domain = "housing" ∨ s.domain = "finance" ∨ s.domain = "visa" then
    match parsed with
    | none => { s with simulation_options := [] }
    | some sims => { s with simulation_options := sims.filter simValid }
  else { s with simulation_options := [] }

/-! ## Orchestration graph (backend/agents/graph.py, `build_graph`) -/

/-- The LangGraph nodes. -/
inductive Node where
  | router | finance | housing | visa | rag | risk | simulation
deriving DecidableEq, Repr

/-- `route_to_domain`: the conditional edge out of the router, chosen from
the domain stored in the state; anything outside the three specialized domains goes
straight to the RAG node. -/
def route_to_domain (s : AgentState) : Node :=
  if s.domain = "finance" then .finance
  else if s.domain = "housing" then .housing
  else if s.domain = "visa" then .visa
  else .rag

/-- Execute the agent of one node on the state. -/
def stepNode (env : Env) : Node → AgentState → AgentState
  | .router, s => router_agent env.routerFail env.failMsg env.routerReply s
  | .finance, s => finance_agent env.finFail env.failMsg env.finReply s
  | .housing, s => housing_agent env.housFail env.failMsg env.housReply s
  | .visa, s => visa_agent env.visaFail env.failMsg env.visaReply s
  | .rag, s => rag_agent env.ragFail env.failMsg env.ragSearch s
  | .risk, s => risk_agent env.riskFail env.failMsg env.riskReply s
  | .simulation, s => simulation_agent env.simFail env.simParsed s

/-- The edge relation of `build_graph`: the conditional edge of the router, the
unconditional edges `finance/housing/visa → rag → risk → simulation`, and
`simulation → END` (`none`). -/
def nextNode : Node → AgentState → Option Node
  | .router, s => some (route_to_domain s)
  | .finance, _ => some .rag
  | .housing, _ => some .rag
  | .visa, _ => some .rag
  | .rag, _ => some .risk
  | .risk, _ => some .simulation
  | .simulation, _ => none

/-- Fuel-driven graph executor: runs the current node, then follows the edge
relation; returns the sequence of executed nodes and the final state. -/
def runFrom (env : Env) : Nat → Node → AgentState → List Node × AgentState
  | 0, _, s => ([], s)
  | fuel + 1, n, s =>
    let s1 := stepNode env n s
    match nextNode n s1 with
    | none => ([n], s1)
    | some n2 =>
      let r := runFrom env fuel n2 s1
      (n :: r.1, r.2)

/-- One full pipeline run from the router entry point (`set_entry_point`),
with enough fuel for the longest path (router, specialized, rag, risk,
simulation). -/
def runPipeline (env : Env) (s : AgentState) : List Node × AgentState :=
  runFrom env 6 .router s

/-! ## Retrieval (backend/db/vector_store.py and
backend/tools/retrieval_tool.py)

`embed_text` re-raises its failures; `vector_search` wraps the embedding
call and the aggregation in `try/except` and degrades any failure to `[]`.
Both external effects are oracles: `embed` produces a query vector or an
error, `aggregate` runs the `$vectorSearch` pipeline (whose stages are
determined by the query vector, the effective domain filter, `top_k` and the
collection, the index name being chosen from the collection name) and
produces the projected result documents or an error. -/

def vector_search {α : Type} (embed : String → Except String (List ℚ))
    (aggregate : List ℚ → Option String → Nat → String → Except String (List α))
    (query_text : String) (domain_filter : Option String) (top_k : Nat)
    (collection_name : String) : List α :=
  match embed query_text with
  | .error _ => []
  | .ok v =>
    match aggregate v domain_filter top_k collection_name with
    | .error _ => []
    | .ok rs => rs

/-- `GlobalRetrievalTool`: chooses the collection from `collection_type`,
nulls out the domain filter for clause searches (clause embeddings are
stored with `domain="unknown"`, so filtering would eliminate everything),
and delegates to `vector_search`.  Its own `except Exception` branch is
unreachable in the embedding because `vector_search` is total.  The `campus`
argument is accepted and ignored, as in the source. -/
def GlobalRetrievalTool {α : Type} (embed : String → Except String (List ℚ))
    (aggregate : List ℚ → Option String → Nat → String → Except String (List α))
    (query_text : String) (domain_filter : Option String) (campus : String)
    (top_k : Nat) (collection_type : String) : List α :=
  let collection_name := if collection_type = "clause" then "Embeddings" else "campus_resources_vector"
  let effective_domain_filter := if collection_type = "clause" then none else domain_filter
  vector_search embed aggregate query_text effective_domain_filter top_k collection_name

/-! ## Analyze endpoint (backend/routers/analyze.py, `analyze_document`) -/

/-- The fields of `AnalyzeResponse` the claims are about (clause/resource
object building carries the remaining state lists across unchanged and is
not re-modelled; `available_simulations` re-wraps each descriptor with
per-key defaults, which is the identity at the key-set granularity of
`SimObj`). -/
structure AnalyzeOutcome where
  session_id : String
  domain : String
  risk_score : ℚ
  risk_level : String
  risk_reasoning : String
  obligations : List String
  red_flags : List String
  summary : String
  recommendations : List String
  available_simulations : List SimObj
deriving DecidableEq, Repr

/-- Lines 68–80 of analyze.py: substring search over the stored risk
assessment, mapping to the constant pairs HIGH/0.75, LOW/0.25 and the
MEDIUM/0.5 default. -/
def analyzeRiskPair (ra : String) : String × ℚ :=
  if listHasSub (pyLower ra.data) "high".data then ("HIGH", 3 / 4)
  else if listHasSub (pyLower ra.data) "low".data then ("LOW", 1 / 4)
  else ("MEDIUM", 1 / 2)

/-- The recommendation list built from substring tests on the risk
assessment text. -/
def buildRecommendations (ra : String) : List String :=
  let lower := pyLower ra.data
  (if listHasSub lower "high".data then
    ["Seek guidance from relevant campus office before proceeding"] else [])
    ++ (if listHasSub lower "penalty".data then
        ["Understand all penalties and deadlines clearly"] else [])
    ++ (if listHasSub lower "compliance".data then
        ["Ensure full compliance with all requirements"] else [])
    ++ ["Ask questions about any unclear terms"]

/-- The hard-coded placeholder response for a missing or still-processing
document: note `risk_score=0.0` with `risk_level="LOW"`. -/
def placeholderResponse (sid reasoning summary : String) : AnalyzeOutcome where
  session_id := sid
  domain := "unknown"
  risk_score := 0
  risk_level := "LOW"
  risk_reasoning := reasoning
  obligations := []
  red_flags := []
  summary := summary
  recommendations := []
  available_simulations := []

/-- The response assembled on the main path of the analyze endpoint, for a
found and processed document whose workflow produced final state
`finalState` (with `workflowOk = false` meaning the workflow raised and
every `final_state.get(key, default)` read its default) and whose extracted
risk assessment text is `ra`. -/
def foundOutcome (sid : String) (workflowOk : Bool) (finalState : AgentState)
    (ra : String) : AnalyzeOutcome where
  session_id := sid
  domain := if workflowOk then finalState.domain else "unknown"
  risk_score := (analyzeRiskPair ra).2
  risk_level := (analyzeRiskPair ra).1
  risk_reasoning := if ra ≠ "" then ra else "Analysis complete"
  obligations := if workflowOk then finalState.obligations else []
  red_flags := (if workflowOk then finalState.red_flags else []).take 5
  summary := if ra ≠ "" then ra else "Document analyzed."
  recommendations := buildRecommendations ra
  available_simulations := if workflowOk then finalState.simulation_options else []

/-- `analyze_document`: `docFound`/`processed` model the database lookup of
the session document; `workflowOk` models whether `run_analysis_workflow`
returned the final state of the graph (on a workflow exception it returns a
two-key error dict, so every `final_state.get(key, default)` yields the
default).  When the workflow succeeded but the risk stage hit its exception
branch, `risk_assessment` is still Python `None` and
`risk_assessment.lower()` raises an `AttributeError`, which the `except` clause of the endpoint
re-raises: that is the `.error` case. -/
def analyze_document (sid : String) (docFound processed workflowOk : Bool)
    (finalState : AgentState) : Except String AnalyzeOutcome :=
  if docFound = false then
    .ok (placeholderResponse sid "Document not found in system." "Document not found")
  else if processed = false then
    .ok (placeholderResponse sid "Document is still being processed."
      "Document still processing. Please retry in a moment.")
  else
    match (if workflowOk then finalState.risk_assessment else some "" : Option String) with
    | none => .error "AttributeError: NoneType object has no attribute lower"
    | some ra => .ok (foundOutcome sid workflowOk finalState ra)

/-! ## Simulate endpoint (backend/routers/simulate.py) -/

/-- Python `str.title()`: uppercase every cased character that follows a
non-cased one, lowercase the rest (ASCII case mapping). -/
def pyTitleAux : Bool → List Char → List Char
  | _, [] => []
  | prevAlpha, c :: cs =>
    (if c.isAlpha then (if prevAlpha then c.toLower else c.toUpper) else c)
      :: pyTitleAux c.isAlpha cs

def pyTitle (l : List Char) : List Char := pyTitleAux false l

/-- Python `round(x, 2)` on an exact value: round half to even at two
decimal places. -/
def pyRound2 (q : ℚ) : ℚ :=
  let x := q * 100
  let n : ℤ := ⌊x⌋
  let frac := x - n
  (if frac < 1 / 2 then (n : ℚ)
   else if frac > 1 / 2 then (n : ℚ) + 1
   else if n % 2 = 0 then (n : ℚ) else (n : ℚ) + 1) / 100

/-- A JSON value appearing in a request parameter mapping or a response
breakdown. -/
inductive PyVal where
  | num (q : ℚ)
  | str (s : String)
  | bool (b : Bool)
deriving DecidableEq, Repr

/-- The dict returned by the model call inside `get_gemini_simulation`,
after JSON parsing, at the granularity the endpoint reads it
(`gemini_result.get(key, default)`): each field is present or absent. -/
structure GeminiReply where
  result : Option ℚ
  severity : Option String
  reasoning : Option String
  is_risk : Option Bool
deriving DecidableEq, Repr

/-- `get_gemini_simulation`: the oracle `callOutcome` is the parsed reply of
the model call, `none` meaning the call or the JSON parse raised; that
branch is caught and converted into the fixed dict
`{"result": 0, "severity": "ERROR", "reasoning": ..., "is_risk": False}`. -/
def get_gemini_simulation (callOutcome : Option GeminiReply) (errText : String) : GeminiReply :=
  match callOutcome with
  | some r => r
  | none =>
    { result := some 0
      severity := some "ERROR"
      reasoning := some ("Simulation error: " ++ errText)
      is_risk := some false }

/-- One entry of the `SIMULATION_FORMULAS` table. -/
structure FormulaInfo where
  label : String
  formula : String
  required_params : List String
  domain : String
deriving DecidableEq, Repr

/-- The `SIMULATION_FORMULAS` table, verbatim. -/
def SIMULATION_FORMULAS : List (String × FormulaInfo) :=
  [("early_termination",
    { label := "Early Lease Termination"
      formula := "Gemini-assessed cost based on MA tenant law and lease terms"
      required_params := ["base_penalty", "months_remaining", "monthly_penalty"]
      domain := "housing" }),
   ("late_rent",
    { label := "Late Rent Payment"
      formula := "Gemini-assessed fees considering MA law and grace periods"
      required_params := ["monthly_rent", "late_fee_percent", "daily_fee", "days_late"]
      domain := "housing" }),
   ("security_deposit",
    { label := "Security Deposit Return Estimate"
      formula := "Gemini-assessed return considering MA deposit laws"
      required_params := ["deposit_amount", "cleaning_fee", "damage_cost", "unpaid_balance"]
      domain := "housing" }),
   ("credit_reduction",
    { label := "Credit Hour Reduction Impact"
      formula := "Gemini-assessed aid impact based on federal aid rules"
      required_params := ["current_aid", "current_credits", "new_credits", "full_time_credits"]
      domain := "finance" }),
   ("withdrawal_refund",
    { label := "Mid-Semester Withdrawal Refund"
      formula := "Gemini-assessed refund based on Title IV and university policies"
      required_params := ["tuition", "weeks_completed", "total_weeks"]
      domain := "finance" }),
   ("missed_deadline",
    { label := "Missed FAFSA Deadline Impact"
      formula := "Gemini-assessed aid risk based on deadline types"
      required_params := ["total_aid", "days_late"]
      domain := "finance" }),
   ("work_hours_violation",
    { label := "Work Hour Violation Risk"
      formula := "Gemini-assessed risk based on F-1 work authorization rules"
      required_params := ["hours_worked", "max_allowed_hours"]
      domain := "visa" }),
   ("course_load_drop",
    { label := "Course Load Drop Impact"
      formula := "Gemini-assessed SEVIS compliance risk"
      required_params := ["current_credits", "minimum_credits", "has_rpe_approval"]
      domain := "visa" })]

/-- The response record of the simulate endpoint (`SimulateResponse` in
backend/models/schemas.py; every field is an unconstrained string, number,
bool, list or mapping — the schema does not restrict `severity` to the
documented set). -/
structure SimulateResponse where
  scenario_type : String
  scenario_label : String
  exposure_estimate : ℚ
  formula_used : String
  explanation : String
  breakdown : List (String × PyVal)
  caveats : List String
  severity : String
  is_risk : Bool
deriving DecidableEq, Repr

/-- The documented severity vocabulary (schemas.py comment and the prompt
templates). -/
def documentedSeverities : List String := ["NONE", "LOW", "MODERATE", "HIGH", "CRITICAL"]

/-- `run_simulation` (the POST /api/simulate handler): look up the scenario
in `SIMULATION_FORMULAS` (or fall back to a dynamic label/formula), obtain
the model judgment through `get_gemini_simulation`, read each field with
its default, and assemble the response.  Total: the failure path of the
model call is converted into a dict before this code reads it. -/
def run_simulation (callOutcome : Option GeminiReply) (errText : String)
    (scenario_type : String) (parameters : List (String × PyVal)) : SimulateResponse :=
  let info : FormulaInfo :=
    match SIMULATION_FORMULAS.lookup scenario_type with
    | some f => f
    | none =>
      { label := ofChars (pyTitle (replaceAll "_".data " ".data scenario_type.data))
        formula := "Gemini-assessed based on scenario context"
        required_params := parameters.map (fun kv => kv.1)
        domain := "general" }
  let g := get_gemini_simulation callOutcome errText
  let result := g.result.getD 0
  let severity := g.severity.getD "UNKNOWN"
  let is_risk := g.is_risk.getD false
  { scenario_type := scenario_type
    scenario_label := info.label
    exposure_estimate := pyRound2 result
    formula_used := info.formula
    explanation := g.reasoning.getD "Assessment completed."
    breakdown :=
      info.required_params.map (fun p => (p, ((parameters.lookup p).getD (.num 0))))
        ++ [("gemini_result", .num result), ("severity", .str severity),
            ("is_risk_assessment", .bool is_risk)]
    caveats :=
      if info.domain = "housing" then
        ["This estimate considers MA tenant protection laws.",
         "Contact Student Legal Services for lease-related questions."]
      else if info.domain = "finance" then
        ["This estimate is based on typical federal and institutional aid policies.",
         "Contact the Financial Aid Office for your specific situation."]
      else if info.domain = "visa" then
        ["Immigration consequences are serious - this is for awareness only.",
         "Contact the International Programs Office IMMEDIATELY for any concerns."]
      else
        ["This is an AI-generated estimate for guidance only.",
         "Consult the appropriate campus office for official information."]
    severity := severity
    is_risk := is_risk }

/-! ## Pipeline closed form

The graph of `build_graph` has exactly four paths; the run of the executor is
equal to the corresponding explicit composition.  These helpers are shared
by the claims about the pipeline. -/

/-- The specialized node executed for a routed domain (empty for anything
outside the three specialized domains). -/
def specializedTrace (d : String) : List Node :=
  if d = "finance" then [.finance]
  else if d = "housing" then [.housing]
  else if d = "visa" then [.visa]
  else []

/-- The state transformation of the (possibly absent) specialized stage. -/
def specializedApply (env : Env) (s : AgentState) : AgentState :=
  if s.domain = "finance" then finance_agent env.finFail env.failMsg env.finReply s
  else if s.domain = "housing" then housing_agent env.housFail env.failMsg env.housReply s
  else if s.domain = "visa" then visa_agent env.visaFail env.failMsg env.visaReply s
  else s

/-- The constant level-to-score table stated by the specification. -/
def riskPairTable : List (String × ℚ) :=
  [("LOW", 1 / 4), ("MEDIUM", 1 / 2), ("HIGH", 3 / 4)]

/-- A benign concrete environment: no exception branch taken, empty model
replies, empty retrieval results. -/
def envA : Env where
  routerFail := false
  routerReply := ""
  finFail := false
  finReply := ""
  housFail := false
  housReply := ""
  visaFail := false
  visaReply := ""
  ragFail := false
  ragSearch := fun _ => []
  riskFail := false
  riskReply := ""
  simFail := false
  simParsed := none
  failMsg := "error"

/-- The concrete analyze outcome of a benign run over an unclassifiable
document. -/
def c3Out : AnalyzeOutcome where
  session_id := "s"
  domain := "unknown"
  risk_score := 1 / 2
  risk_level := "MEDIUM"
  risk_reasoning := "Analysis complete"
  obligations := []
  red_flags := []
  summary := "Document analyzed."
  recommendations := ["Ask questions about any unclear terms"]
  available_simulations := []

/-- A descriptor carrying exactly the four required keys (and no
`description`). -/
def c6Sim : SimObj := ⟨["scenario_type", "label", "parameters", "formula"]⟩

/-- A state routed to the finance domain, as the simulation stage sees it. -/
def c6State : AgentState := { initialState "s" "t" with domain := "finance" }

theorem runPipeline_closed (env : Env) (s : AgentState) :
    runPipeline env s =
      (Node.router :: (specializedTrace (router_agent env.routerFail env.failMsg env.routerReply s).domain
          ++ [Node.rag, Node.risk, Node.simulation]),
       simulation_agent env.simFail env.simParsed
         (risk_agent env.riskFail env.failMsg env.riskReply
           (rag_agent env.ragFail env.failMsg env.ragSearch
             (specializedApply env (router_agent env.routerFail env.failMsg env.routerReply s))))) := by
  set s1 := router_agent env.routerFail env.failMsg env.routerReply s with hs1
  by_cases h1 : s1.domain = "finance"
  · simp [runPipeline, runFrom, stepNode, nextNode, route_to_domain, h1,
      specializedTrace, specializedApply, ← hs1]
  · by_cases h2 : s1.domain = "housing"
    · simp [runPipeline, runFrom, stepNode, nextNode, route_to_domain, h1, h2,
        specializedTrace, specializedApply, ← hs1]
    · by_cases h3 : s1.domain = "visa"
      · simp [runPipeline, runFrom, stepNode, nextNode, route_to_domain, h1, h2, h3,
          specializedTrace, specializedApply, ← hs1]
      · simp [runPipeline, runFrom, stepNode, nextNode, route_to_domain, h1, h2, h3,
          specializedTrace, specializedApply, ← hs1]

/-! ### Frame lemmas: which fields each agent leaves untouched -/

@[simp] theorem rag_agent_financial (f : Bool) (m : String) (g : String → List RagResult)
    (s : AgentState) : (rag_agent f m g s).financial_details = s.financial_details := by
  unfold rag_agent; split <;> rfl

@[simp] theorem rag_agent_housing (f : Bool) (m : String) (g : String → List RagResult)
    (s : AgentState) : (rag_agent f m g s).housing_details = s.housing_details := by
  unfold rag_agent; split <;> rfl

@[simp] theorem rag_agent_visa (f : Bool) (m : String) (g : String → List RagResult)
    (s : AgentState) : (rag_agent f m g s).visa_details = s.visa_details := by
  unfold rag_agent; split <;> rfl

@[simp] theorem rag_agent_risk_assessment (f : Bool) (m : String) (g : String → List RagResult)
    (s : AgentState) : (rag_agent f m g s).risk_assessment = s.risk_assessment := by
  unfold rag_agent; split <;> rfl

@[simp] theorem risk_agent_financial (f : Bool) (m r : String) (s : AgentState) :
    (risk_agent f m r s).financial_details = s.financial_details := by
  unfold risk_agent; split <;> rfl

@[simp] theorem risk_agent_housing (f : Bool) (m r : String) (s : AgentState) :
    (risk_agent f m r s).housing_details = s.housing_details := by
  unfold risk_agent; split <;> rfl

@[simp] theorem risk_agent_visa (f : Bool) (m r : String) (s : AgentState) :
    (risk_agent f m r s).visa_details = s.visa_details := by
  unfold risk_agent; split <;> rfl

@[simp] theorem simulation_agent_financial (f : Bool) (p : Option (List SimObj))
    (s : AgentState) : (simulation_agent f p s).financial_details = s.financial_details := by
  unfold simulation_agent
  split
  · rfl
  · split
    · split <;> rfl
    · rfl

@[simp] theorem simulation_agent_housing (f : Bool) (p : Option (List SimObj))
    (s : AgentState) : (simulation_agent f p s).housing_details = s.housing_details := by
  unfold simulation_agent
  split
  · rfl
  · split
    · split <;> rfl
    · rfl

@[simp] theorem simulation_agent_visa (f : Bool) (p : Option (List SimObj))
    (s : AgentState) : (simulation_agent f p s).visa_details = s.visa_details := by
  unfold simulation_agent
  split
  · rfl
  · split
    · split <;> rfl
    · rfl

@[simp] theorem simulation_agent_risk_assessment (f : Bool) (p : Option (List SimObj))
    (s : AgentState) : (simulation_agent f p s).risk_assessment = s.risk_assessment := by
  unfold simulation_agent
  split
  · rfl
  · split
    · split <;> rfl
    · rfl

@[simp] theorem router_agent_risk_assessment (f : Bool) (m r : String) (s : AgentState) :
    (router_agent f m r s).risk_assessment = s.risk_assessment := by
  unfold router_agent; split <;> rfl

@[simp] theorem finance_agent_risk_assessment (f : Bool) (m r : String) (s : AgentState) :
    (finance_agent f m r s).risk_assessment = s.risk_assessment := by
  unfold finance_agent; split <;> rfl

@[simp] theorem housing_agent_risk_assessment (f : Bool) (m r : String) (s : AgentState) :
    (housing_agent f m r s).risk_assessment = s.risk_assessment := by
  unfold housing_agent; split <;> rfl

@[simp] theorem visa_agent_risk_assessment (f : Bool) (m r : String) (s : AgentState) :
    (visa_agent f m r s).risk_assessment = s.risk_assessment := by
  unfold visa_agent; split <;> rfl

theorem specializedApply_risk_assessment (env : Env) (s : AgentState) :
    (specializedApply env s).risk_assessment = s.risk_assessment := by
  unfold specializedApply
  split
  · simp
  · split
    · simp
    · split
      · simp
      · rfl

/-- The risk stage either hits its exception branch and leaves
`risk_assessment` as it found it, or stores `some ""`. -/
theorem risk_agent_assessment_cases (f : Bool) (m r : String) (s : AgentState) :
    (risk_agent f m r s).risk_assessment = s.risk_assessment ∨
      (risk_agent f m r s).risk_assessment = some "" := by
  unfold risk_agent; split
  · exact .inl rfl
  · exact .inr rfl

/-- After a full pipeline run from the initial workflow state, the stored
risk assessment is either still unset (risk stage hit its exception branch)
or the empty string. -/
theorem runPipeline_risk_assessment (env : Env) (sid text : String) :
    (runPipeline env (initialState sid text)).2.risk_assessment = none ∨
      (runPipeline env (initialState sid text)).2.risk_assessment = some "" := by
  rw [runPipeline_closed]
  simp only [simulation_agent_risk_assessment]
  rcases risk_agent_assessment_cases env.riskFail env.failMsg env.riskReply
      (rag_agent env.ragFail env.failMsg env.ragSearch
        (specializedApply env (router_agent env.routerFail env.failMsg env.routerReply
          (initialState sid text)))) with h | h
  · rw [h]
    simp [specializedApply_risk_assessment, initialState]
  · exact .inr h

@[simp] theorem router_agent_financial (f : Bool) (m r : String) (s : AgentState) :
    (router_agent f m r s).financial_details = s.financial_details := by
  unfold router_agent; split <;> rfl

@[simp] theorem router_agent_housing (f : Bool) (m r : String) (s : AgentState) :
    (router_agent f m r s).housing_details = s.housing_details := by
  unfold router_agent; split <;> rfl

@[simp] theorem router_agent_visa (f : Bool) (m r : String) (s : AgentState) :
    (router_agent f m r s).visa_details = s.visa_details := by
  unfold router_agent; split <;> rfl

@[simp] theorem finance_agent_housing (f : Bool) (m r : String) (s : AgentState) :
    (finance_agent f m r s).housing_details = s.housing_details := by
  unfold finance_agent; split <;> rfl

@[simp] theorem finance_agent_visa (f : Bool) (m r : String) (s : AgentState) :
    (finance_agent f m r s).visa_details = s.visa_details := by
  unfold finance_agent; split <;> rfl

@[simp] theorem housing_agent_financial (f : Bool) (m r : String) (s : AgentState) :
    (housing_agent f m r s).financial_details = s.financial_details := by
  unfold housing_agent; split <;> rfl

@[simp] theorem housing_agent_visa (f : Bool) (m r : String) (s : AgentState) :
    (housing_agent f m r s).visa_details = s.visa_details := by
  unfold housing_agent; split <;> rfl

@[simp] theorem visa_agent_financial (f : Bool) (m r : String) (s : AgentState) :
    (visa_agent f m r s).financial_details = s.financial_details := by
  unfold visa_agent; split <;> rfl

@[simp] theorem visa_agent_housing (f : Bool) (m r : String) (s : AgentState) :
    (visa_agent f m r s).housing_details = s.housing_details := by
  unfold visa_agent; split <;> rfl

/-- Every possible stage trace is duplicate-free. -/
theorem traceNodup (d : String) :
    (Node.router :: (specializedTrace d ++ [Node.rag, Node.risk, Node.simulation])).Nodup := by
  unfold specializedTrace
  split
  · decide
  · split
    · decide
    · split
      · decide
      · decide

/-- On a found and processed document, a successful analyze call always goes
through the main branch: the stored risk assessment was a string `ra` and
the response is `foundOutcome` at `ra`. -/
theorem analyze_document_ok_shape (sid : String) (wOk : Bool) (F : AgentState)
    (out : AnalyzeOutcome) (h : analyze_document sid true true wOk F = .ok out) :
    ∃ ra : String, (if wOk then F.risk_assessment else some "") = some ra ∧
      out = foundOutcome sid wOk F ra := by
  unfold analyze_document at h
  rw [if_neg (by decide), if_neg (by decide)] at h
  cases hra : (if wOk then F.risk_assessment else some "" : Option String) with
  | none => rw [hra] at h; exact Except.noConfusion h
  | some ra =>
    rw [hra] at h
    refine ⟨ra, rfl, ?_⟩
    cases h
    rfl

/-! ## Claim C9 -/

/-- Claim C9 (confirmed): within one pipeline run the executed stage
sequence is the classification stage first, then exactly the matching
specialized stage when the routed domain is finance/housing/visa and nothing
otherwise, then the retrieval-augmentation stage (always), then the risk
stage, then the simulation-extraction stage, then termination; no stage is
re-entered. -/
theorem c9_transition_trace (env : Env) (sid text : String) :
    (runPipeline env (initialState sid text)).1 =
      Node.router ::
        (specializedTrace
            (router_agent env.routerFail env.failMsg env.routerReply (initialState sid text)).domain
          ++ [Node.rag, Node.risk, Node.simulation]) ∧
    (runPipeline env (initialState sid text)).1.Nodup := by
  have hc := runPipeline_closed env (initialState sid text)
  refine ⟨by rw [hc], ?_⟩
  rw [hc]
  exact traceNodup _

/-! ## Claim C5 -/

/-- Claim C5 (confirmed): in a full pipeline run whose executed specialized
stage does not hit its exception branch, exactly the detail field matching
the routed domain is populated and the other two remain unset; when the
routed domain is `unknown` all three remain unset. -/
theorem c5_details_frame (env : Env) (sid text : String)
    (hf : env.finFail = false) (hh : env.housFail = false) (hv : env.visaFail = false) :
    ((router_agent env.routerFail env.failMsg env.routerReply (initialState sid text)).domain = "finance" →
      (runPipeline env (initialState sid text)).2.financial_details = some env.finReply ∧
      (runPipeline env (initialState sid text)).2.housing_details = none ∧
      (runPipeline env (initialState sid text)).2.visa_details = none) ∧
    ((router_agent env.routerFail env.failMsg env.routerReply (initialState sid text)).domain = "housing" →
      (runPipeline env (initialState sid text)).2.housing_details = some env.housReply ∧
      (runPipeline env (initialState sid text)).2.financial_details = none ∧
      (runPipeline env (initialState sid text)).2.visa_details = none) ∧
    ((router_agent env.routerFail env.failMsg env.routerReply (initialState sid text)).domain = "visa" →
      (runPipeline env (initialState sid text)).2.visa_details = some env.visaReply ∧
      (runPipeline env (initialState sid text)).2.financial_details = none ∧
      (runPipeline env (initialState sid text)).2.housing_details = none) ∧
    ((router_agent env.routerFail env.failMsg env.routerReply (initialState sid text)).domain = "unknown" →
      (runPipeline env (initialState sid text)).2.financial_details = none ∧
      (runPipeline env (initialState sid text)).2.housing_details = none ∧
      (runPipeline env (initialState sid text)).2.visa_details = none) := by
  rw [runPipeline_closed]
  refine ⟨fun hd => ?_, fun hd => ?_, fun hd => ?_, fun hd => ?_⟩ <;>
    simp only [simulation_agent_financial, simulation_agent_housing, simulation_agent_visa,
      risk_agent_financial, risk_agent_housing, risk_agent_visa,
      rag_agent_financial, rag_agent_housing, rag_agent_visa,
      specializedApply, hd] <;>
    simp [finance_agent, housing_agent, visa_agent, hf, hh, hv, initialState]

/-- Witness for C5: a benign finance-routed run. -/
theorem c5_details_frame_witness :
    (runPipeline { envA with routerReply := "DOMAIN: finance" }
      (initialState "s" "t")).2.financial_details = some "" ∧
    (runPipeline { envA with routerReply := "DOMAIN: finance" }
      (initialState "s" "t")).2.housing_details = none ∧
    (runPipeline { envA with routerReply := "DOMAIN: finance" }
      (initialState "s" "t")).2.visa_details = none :=
  (c5_details_frame { envA with routerReply := "DOMAIN: finance" } "s" "t"
    rfl rfl rfl).1 (by decide)

/-! ## Claim C3 -/

/-- Claim C3 (confirmed): every non-exception path of the risk stage stores
the empty string into `risk_assessment`, and the analyze endpoint derives
the risk level by substring search over that stored string, so every found
and processed document whose analyze call returns successfully gets
risk level MEDIUM with score 0.5, whatever the document contains. -/
theorem c3_pipeline_forces_medium (env : Env) (sid text : String) (wOk : Bool)
    (out : AnalyzeOutcome)
    (h : analyze_document sid true true wOk (runPipeline env (initialState sid text)).2 = .ok out) :
    out.risk_level = "MEDIUM" ∧ out.risk_score = 1 / 2 ∧
    (env.riskFail = false →
      (runPipeline env (initialState sid text)).2.risk_assessment = some "") := by
  obtain ⟨ra, hra, hout⟩ := analyze_document_ok_shape sid wOk _ out h
  have hempty : ra = "" := by
    cases hw : wOk with
    | false =>
      rw [hw, if_neg (by decide)] at hra
      exact (Option.some.injEq _ _ ▸ hra).symm
    | true =>
      rw [hw, if_pos rfl] at hra
      rcases runPipeline_risk_assessment env sid text with hx | hx <;> rw [hx] at hra
      · exact Option.noConfusion hra
      · exact (Option.some.injEq _ _ ▸ hra).symm
  subst hempty
  subst hout
  refine ⟨?_, ?_, ?_⟩
  · show (analyzeRiskPair "").1 = "MEDIUM"
    rfl
  · show (analyzeRiskPair "").2 = 1 / 2
    rfl
  · intro hrf
    rw [runPipeline_closed]
    simp [risk_agent, hrf]

/-- Witness for C3: a benign run over an unclassifiable document yields the
MEDIUM / 0.5 response. -/
theorem c3_pipeline_forces_medium_witness :
    c3Out.risk_level = "MEDIUM" ∧ c3Out.risk_score = 1 / 2 := by
  have hthm := c3_pipeline_forces_medium envA "s" "t" true c3Out (by rfl)
  exact ⟨hthm.1, hthm.2.1⟩

/-! ## Claim C4 -/

/-- Appending through the dedup guard preserves pairwise-distinct texts. -/
theorem ragInsert_pairwise (q : String) (acc : List RagClause) (r : RagResult)
    (h : acc.Pairwise (fun a b => a.text ≠ b.text)) :
    (ragInsert q acc r).Pairwise (fun a b => a.text ≠ b.text) := by
  unfold ragInsert
  split
  · rename_i hc
    refine List.pairwise_append.2 ⟨h, List.pairwise_singleton _ _, ?_⟩
    intro a ha b hb
    rw [List.mem_singleton] at hb
    subst hb
    exact hc.2 a ha
  · exact h

theorem foldl_ragInsert_pairwise (q : String) (rs : List RagResult) (acc : List RagClause)
    (h : acc.Pairwise (fun a b => a.text ≠ b.text)) :
    (rs.foldl (ragInsert q) acc).Pairwise (fun a b => a.text ≠ b.text) := by
  induction rs generalizing acc with
  | nil => exact h
  | cons r rs ih => exact ih _ (ragInsert_pairwise q acc r h)

/-- The collected clause list has pairwise-distinct texts, whatever the
retrieval tool returned. -/
theorem ragCollect_pairwise (search : String → List RagResult) (qs : List String) :
    (ragCollect search qs).Pairwise (fun a b => a.text ≠ b.text) := by
  have hgen : ∀ (qs2 : List String) (acc : List RagClause),
      acc.Pairwise (fun a b => a.text ≠ b.text) →
      (qs2.foldl (fun acc q => (search q).foldl (ragInsert q) acc) acc).Pairwise
        (fun a b => a.text ≠ b.text) := by
    intro qs2
    induction qs2 with
    | nil => exact fun _ h => h
    | cons q qs2 ih => exact fun acc h => ih _ (foldl_ragInsert_pairwise q (search q) acc h)
  exact hgen qs [] List.Pairwise.nil

/-- Claim C4 (confirmed): when the retrieval-augmentation stage runs without
an internal exception, the `rag_context` it stores is sorted by
non-increasing score, contains no two entries with equal text, and has
length at most 10, for every sequence of results returned by the retrieval
tool. -/
theorem c4_rag_context_invariants (msg : String) (search : String → List RagResult)
    (s : AgentState) :
    List.Sorted scoreGE (rag_agent false msg search s).rag_context ∧
    ((rag_agent false msg search s).rag_context).Pairwise (fun a b => a.text ≠ b.text) ∧
    ((rag_agent false msg search s).rag_context).length ≤ 10 := by
  unfold rag_agent
  rw [if_neg (by decide)]
  show List.Sorted scoreGE ((List.insertionSort scoreGE
        (ragCollect search (ragQueries s))).take 10) ∧ _ ∧ _
  refine ⟨?_, ?_, ?_⟩
  · exact (List.sorted_insertionSort scoreGE _).sublist (List.take_sublist _ _)
  · exact List.Pairwise.sublist (List.take_sublist _ _)
      (((List.perm_insertionSort scoreGE _).pairwise_iff
        (fun {_ _} h => Ne.symm h)).2 (ragCollect_pairwise search _))
  · exact List.length_take_le _ _

/-! ## Claim C1 -/

/-- The keyword fallback always lands in the canonical set. -/
theorem routerKeywordFallback_mem (l : List Char) :
    routerKeywordFallback l ∈ canonicalDomains := by
  unfold routerKeywordFallback
  split
  · decide
  · split
    · decide
    · split
      · decide
      · decide

/-- Claim C1 (counterexample): the reply "DOMAIN: other" makes the
classification stage write the domain "other" into the state — a value
outside {finance, housing, visa, unknown} — so the claim as stated is
false. -/
theorem c1_domain_set_counterexample :
    (router_agent false "error" "DOMAIN: other" (initialState "s" "t")).domain = "other" ∧
    "other" ∉ canonicalDomains :=
  ⟨rfl, by decide⟩

/-- Claim C1 (amended): the classification stage is total (its exception
branch is caught and yields "unknown"), and the domain it writes is either
one of {finance, housing, visa, unknown} or exactly the lowercased, trimmed
text after the first `DOMAIN:` marker of the model reply, which the code
does not validate against the set. -/
theorem c1_router_domain_amended (fail : Bool) (msg reply : String) (s : AgentState) :
    (router_agent fail msg reply s).domain ∈ canonicalDomains ∨
      extractDomainTag reply = some (router_agent fail msg reply s).domain := by
  unfold router_agent
  cases fail with
  | true =>
    rw [if_pos rfl]
    refine .inl ?_
    show "unknown" ∈ canonicalDomains
    decide
  | false =>
    rw [if_neg (by decide)]
    show routerExtractDomain reply ∈ canonicalDomains ∨
      extractDomainTag reply = some (routerExtractDomain reply)
    unfold routerExtractDomain
    cases htag : extractDomainTag reply with
    | none =>
      simp only [Option.getD_none, if_pos rfl]
      exact .inl (routerKeywordFallback_mem _)
    | some t =>
      simp only [Option.getD_some]
      by_cases ht : t = "unknown"
      · rw [if_pos ht]
        exact .inl (routerKeywordFallback_mem _)
      · rw [if_neg ht]
        exact .inr rfl

/-! ## Claim C2 -/

/-- The substring mapping always produces one of the three table pairs. -/
theorem analyzeRiskPair_mem (ra : String) : analyzeRiskPair ra ∈ riskPairTable := by
  unfold analyzeRiskPair
  split
  · exact List.Mem.tail _ (List.Mem.tail _ (List.Mem.head _))
  · split
    · exact List.Mem.head _
    · exact List.Mem.tail _ (List.Mem.head _)

/-- Claim C2 (counterexample): the placeholder path of the analyze operation for
a document that is not found returns risk level LOW with risk score 0.0, a
pair outside the claimed constant mapping, so "the pair is always one of
(LOW, 0.25), (MEDIUM, 0.5), (HIGH, 0.75)" is false for the analyze
operation as a whole. -/
theorem c2_riskscore_counterexample :
    analyze_document "s" false true true (initialState "s" "t") =
      .ok (placeholderResponse "s" "Document not found in system." "Document not found") ∧
    (placeholderResponse "s" "Document not found in system." "Document not found").risk_level
      = "LOW" ∧
    (placeholderResponse "s" "Document not found in system." "Document not found").risk_score
      = 0 ∧
    (("LOW" : String), (0 : ℚ)) ∉ riskPairTable := by
  refine ⟨rfl, rfl, rfl, ?_⟩
  intro hmem
  simp only [riskPairTable, List.mem_cons, List.mem_singleton, List.not_mem_nil,
    or_false] at hmem
  rcases hmem with h | h | h
  · injection h with h1 h2
    exact absurd h2 (by norm_num)
  · injection h with h1 h2
    exact absurd h1 (by decide)
  · injection h with h1 h2
    exact absurd h1 (by decide)

/-- Claim C2 (amended): for a found and processed document the analyze
response pair (risk_level, risk_score) is one of (LOW, 0.25),
(MEDIUM, 0.5), (HIGH, 0.75) — the score a constant determined by the
three-way level via the substring mapping, not computed from any extracted
indicator; the placeholder paths for missing or still-processing documents
instead return the pair (LOW, 0.0). -/
theorem c2_riskpair_amended (sid : String) (wOk : Bool) (F : AgentState)
    (out : AnalyzeOutcome) (h : analyze_document sid true true wOk F = .ok out) :
    (out.risk_level, out.risk_score) ∈ riskPairTable := by
  obtain ⟨ra, _, hout⟩ := analyze_document_ok_shape sid wOk F out h
  subst hout
  show analyzeRiskPair ra ∈ riskPairTable
  exact analyzeRiskPair_mem ra

/-- Witness for C2: the benign MEDIUM case. -/
theorem c2_riskpair_amended_witness :
    (("MEDIUM" : String), (1 : ℚ) / 2) ∈ riskPairTable :=
  c2_riskpair_amended "s" true { initialState "s" "t" with risk_assessment := some "" }
    (foundOutcome "s" true { initialState "s" "t" with risk_assessment := some "" } "")
    (by rfl)

/-! ## Claim C6 -/

/-- Claim C6 (confirmed): for a known domain and a successfully parsed
reply, a descriptor is retained in `simulation_options` exactly when it
carries all four of the keys scenario_type, label, parameters and formula;
in particular a descriptor lacking only `description` is retained. -/
theorem c6_simulation_required_keys (parsed : Option (List SimObj)) (sims : List SimObj)
    (s : AgentState) (sim : SimObj)
    (hdom : s.domain = "housing" ∨ s.domain = "finance" ∨ s.domain = "visa")
    (hparse : parsed = some sims) :
    sim ∈ (simulation_agent false parsed s).simulation_options ↔
      sim ∈ sims ∧ "scenario_type" ∈ sim.keys ∧ "label" ∈ sim.keys ∧
        "parameters" ∈ sim.keys ∧ "formula" ∈ sim.keys := by
  subst hparse
  unfold simulation_agent
  rw [if_neg (by decide), if_pos hdom]
  show sim ∈ sims.filter simValid ↔ _
  simp [List.mem_filter, simValid, simRequiredKeys, and_assoc]

/-- Witness for C6: a descriptor with exactly the four required keys (no
`description`) is retained in a finance-routed state. -/
theorem c6_simulation_required_keys_witness :
    c6Sim ∈ (simulation_agent false (some [c6Sim]) c6State).simulation_options :=
  (c6_simulation_required_keys (some [c6Sim]) [c6Sim] c6State c6Sim
    (Or.inr (Or.inl rfl)) rfl).2
    ⟨by decide, by decide, by decide, by decide, by decide⟩

/-! ## Claim C7 -/

/-- Claim C7 (confirmed): a clause-collection retrieval is independent of
the `domain_filter` argument — the tool nulls the filter before searching,
for every query, count, campus and underlying search behaviour. -/
theorem c7_clause_search_ignores_domain_filter {α : Type}
    (embed : String → Except String (List ℚ))
    (aggregate : List ℚ → Option String → Nat → String → Except String (List α))
    (q campus : String) (k : Nat) (d1 d2 : Option String) :
    GlobalRetrievalTool embed aggregate q d1 campus k "clause" =
      GlobalRetrievalTool embed aggregate q d2 campus k "clause" := rfl

/-! ## Claim C8 -/

/-- Claim C8 (confirmed): any failure inside the retrieval path — the
embedding call or the vector-search aggregation — degrades to the empty
list; the caller always receives a (possibly empty) list since the tool is
total. -/
theorem c8_retrieval_errors_degrade_to_empty {α : Type}
    (embed : String → Except String (List ℚ))
    (aggregate : List ℚ → Option String → Nat → String → Except String (List α))
    (q campus ct : String) (k : Nat) (df : Option String) (e : String) (v : List ℚ) :
    (embed q = .error e → GlobalRetrievalTool embed aggregate q df campus k ct = []) ∧
    (embed q = .ok v →
      aggregate v (if ct = "clause" then none else df) k
          (if ct = "clause" then "Embeddings" else "campus_resources_vector") = .error e →
      GlobalRetrievalTool embed aggregate q df campus k ct = []) := by
  constructor
  · intro he
    simp only [GlobalRetrievalTool, vector_search]
    rw [he]
  · intro hok hagg
    simp only [GlobalRetrievalTool, vector_search]
    rw [hok]
    dsimp only
    rw [hagg]

/-- Witness for C8: an embedding failure yields the empty list. -/
theorem c8_retrieval_errors_degrade_to_empty_witness :
    @GlobalRetrievalTool Nat (fun _ => Except.error "boom") (fun _ _ _ _ => Except.ok [])
      "q" none "UMass" 3 "clause" = [] :=
  (c8_retrieval_errors_degrade_to_empty (fun _ => Except.error "boom")
    (fun _ _ _ _ => Except.ok []) "q" "UMass" "clause" 3 none "boom" []).1 rfl

/-! ## Claim C10 -/

/-- Claim C10 (confirmed): when the model call or JSON parse inside the
simulate operation fails, the endpoint still returns a well-formed response
(the handler is total on this path): exposure_estimate 0.0, severity the
string "ERROR" — outside the documented set {NONE, LOW, MODERATE, HIGH,
CRITICAL} — and is_risk false. -/
theorem c10_simulate_error_path (errText scenario_type : String)
    (parameters : List (String × PyVal)) :
    (run_simulation none errText scenario_type parameters).exposure_estimate = 0 ∧
    (run_simulation none errText scenario_type parameters).severity = "ERROR" ∧
    (run_simulation none errText scenario_type parameters).is_risk = false ∧
    "ERROR" ∉ documentedSeverities := by
  refine ⟨?_, rfl, rfl, by decide⟩
  show pyRound2 ((some (0 : ℚ)).getD 0) = 0
  rw [Option.getD_some]
  unfold pyRound2
  norm_num

end Navigate413
